import Mathlib

/-!
Shallow embedding of `src/main.py` (Marlen-Shifu/tapioca-contest): an
aiogram-based Telegram bot that collects name / contact / city / receipt
photo from a user and stores one row per submission in a sqlite table.

Modelling notes, traced from the source:
* Per-user FSM state (aiogram `FSMContext` over `MemoryStorage`): a step
  (`None` or one of the four `ReceiptForm` states) plus a data dict whose
  only keys ever written are `name`, `contact`, `city`; the dict is
  modelled as three `Option String` fields.
* `state.set_state` changes only the step (data dict untouched);
  `state.clear()` sets the step to `None` and the data dict to `{}`.
* The sqlite `receipts` table (`id INTEGER PRIMARY KEY AUTOINCREMENT`):
  modelled as a list of rows plus the next id to assign (first id is 1);
  an insert appends a row carrying the next id and bumps it.
* Dispatch (aiogram registration order in the file): `start_command` on a
  `/start` command; `handle_name_input` / `handle_contact_input` /
  `handle_city_input` filtered ONLY by the FSM step (any message content);
  `handle_photo_input` filtered by the photo step AND `F.photo`
  (non-empty photo list); `handle_cancel` on a callback query whose data
  is `"cancel"`, in any step.  An update matched by no handler is dropped.
* A handler may raise: `message.text.strip()` with `text = None` raises
  `AttributeError` (photo sent during a text step), `message.photo[-1]`
  on an empty list raises `IndexError`.  Both raises happen before any
  state/storage mutation; aiogram catches the exception, sends no reply
  and leaves the FSM state as it was.
* The `try` body of `handle_photo_input` (field lookups + sqlite insert)
  either yields a receipt id or fails; a failure (storage fault injected
  via a `storageOk` flag, or a missing dict key) is caught and answered
  with the generic error text; `state.clear()` runs in both branches.
-/

inductive Step
  | idle
  | awaitingName
  | awaitingContact
  | awaitingCity
  | awaitingPhoto
deriving DecidableEq

/-- The per-user data dict restricted to the keys the bot ever writes. -/
structure FormData where
  name : Option String
  contact : Option String
  city : Option String
deriving DecidableEq

def FormData.empty : FormData := ⟨none, none, none⟩

/-- Per-user conversation state: FSM step plus collected fields. -/
structure UserState where
  step : Step
  data : FormData
deriving DecidableEq

/-- A user that has never interacted, and the result of `state.clear()`. -/
def UserState.fresh : UserState := ⟨Step.idle, FormData.empty⟩

/-- An inbound Telegram message: sender id, optional public username,
optional text body, and the photo representations (ordered by ascending
resolution, `[]` when the message carries no photo), each reduced to its
`file_id` reference. -/
structure Msg where
  userId : Nat
  username : Option String
  text : Option String
  photos : List String
deriving DecidableEq

/-- An inbound update: a message, or a callback query with its data. -/
inductive Event
  | msg (m : Msg)
  | callback (userId : Nat) (data : String)
deriving DecidableEq

/-- One row of the sqlite `receipts` table. -/
structure Row where
  id : Nat
  user_id : Nat
  user_name : String
  name : String
  contact : String
  city : String
  photo_id : String
deriving DecidableEq

/-- The `receipts` table contents plus the AUTOINCREMENT counter. -/
structure DB where
  nextId : Nat
  rows : List Row
deriving DecidableEq

def DB.init : DB := ⟨1, []⟩

/-- The texts the bot can send, abstracted as tags; `replyText` below
renders each to the literal string from the source. -/
inductive Reply
  | welcome
  | askContact
  | askCity
  | askPhoto
  | receipt (rid : Nat)
  | storageError
  | cancelAck
  | callbackAck
deriving DecidableEq

def replyText : Reply → String
  | Reply.welcome =>
      "Добро пожаловать в бот Розыгрыша от Tapioca! 🎉\nДля участия в розыгрыше заполните следующие данные.\nКак Вас зовут?"
  | Reply.askContact =>
      "Приятно познакомиться! Отправьте пожалуйста Ваш номер телефона для связи."
  | Reply.askCity => "Из какого города? 🏙"
  | Reply.askPhoto => "Спасибо! Пожалуйста отправьте фото чека. 📸"
  | Reply.receipt rid =>
      "Спасибо за оставленную заявку! Вы стали участником розыгрыша от Tapioca. 🎉\nВаш номер заявки: "
        ++ toString rid ++ "\nХотите оставить еще одну заявку? Нажмите /start."
  | Reply.storageError => "Произошла ошибка при сохранении заявки. Попробуйте еще раз."
  | Reply.cancelAck => "Заявка отклонена. Вы можете начать заново нажав /start."
  | Reply.callbackAck => ""

/-- Exceptions a handler can raise (both occur before any mutation). -/
inductive HandlerErr
  | attributeError
  | indexError
deriving DecidableEq

/-- Outcome of running one handler: either an uncaught exception, or the
new user state, new table contents and the replies sent. -/
abbrev HandlerResult := Except HandlerErr (UserState × DB × List Reply)

/-- aiogram `CommandStart()` filter: message text is a `/start` command,
alone or followed by arguments or a bot mention (prefix compared on the
character list). -/
def isStartCommand : Option String → Bool
  | Option.none => false
  | Option.some s =>
      s = "/start" || s.data.take 7 = "/start ".data || s.data.take 7 = "/start@".data

/-- `start_command` (main.py:71-81): greets, asks for the name, then
`set_state(waiting_for_name)`.  NOTE: `set_state` does not touch the data
dict, so previously collected fields survive a restart. -/
def start_command (m : Msg) (st : UserState) (db : DB) : HandlerResult :=
  Except.ok ({ st with step := Step.awaitingName }, db, [Reply.welcome])

/-- `handle_name_input` (main.py:84-93): `message.text.strip()` raises on
a message without text; otherwise stores the trimmed name and advances. -/
def handle_name_input (m : Msg) (st : UserState) (db : DB) : HandlerResult :=
  match m.text with
  | Option.none => Except.error HandlerErr.attributeError
  | Option.some t =>
      Except.ok (⟨Step.awaitingContact, { st.data with name := some t.trim }⟩, db,
        [Reply.askContact])

/-- `handle_contact_input` (main.py:96-105). -/
def handle_contact_input (m : Msg) (st : UserState) (db : DB) : HandlerResult :=
  match m.text with
  | Option.none => Except.error HandlerErr.attributeError
  | Option.some t =>
      Except.ok (⟨Step.awaitingCity, { st.data with contact := some t.trim }⟩, db,
        [Reply.askCity])

/-- `handle_city_input` (main.py:108-117). -/
def handle_city_input (m : Msg) (st : UserState) (db : DB) : HandlerResult :=
  match m.text with
  | Option.none => Except.error HandlerErr.attributeError
  | Option.some t =>
      Except.ok (⟨Step.awaitingPhoto, { st.data with city := some t.trim }⟩, db,
        [Reply.askPhoto])

/-- The `try` body of `handle_photo_input` (main.py:128-144): look up the
three dict keys (a missing key raises `KeyError`, caught by the same
`except`), then insert; `storageOk = false` injects a storage fault
(unreachable store, failed commit — transaction rolled back, table
unchanged).  On success returns the new table and `cursor.lastrowid`. -/
def tryInsert (storageOk : Bool) (m : Msg) (d : FormData) (photoId : String)
    (db : DB) : Option (DB × Nat) :=
  match d.name, d.contact, d.city with
  | some n, some c, some ci =>
      if storageOk then
        some (⟨db.nextId + 1,
               db.rows ++ [⟨db.nextId, m.userId, m.username.getD "No Username",
                            n, c, ci, photoId⟩]⟩,
              db.nextId)
      else none
  | _, _, _ => none

/-- `handle_photo_input` (main.py:120-158): `message.photo[-1].file_id`
(raises `IndexError` on an empty list), then the guarded insert; replies
with the receipt number on success, with the generic error text on
failure; `state.clear()` runs in either case. -/
def handle_photo_input (storageOk : Bool) (m : Msg) (st : UserState) (db : DB) :
    HandlerResult :=
  match m.photos.getLast? with
  | Option.none => Except.error HandlerErr.indexError
  | Option.some photoId =>
      match tryInsert storageOk m st.data photoId db with
      | Option.some (db2, receiptId) =>
          Except.ok (UserState.fresh, db2, [Reply.receipt receiptId])
      | Option.none =>
          Except.ok (UserState.fresh, db, [Reply.storageError])

/-- `handle_cancel` (main.py:161-170): `state.clear()`, acknowledgement
text, and the empty `callback_query.answer()`. -/
def handle_cancel (st : UserState) (db : DB) : HandlerResult :=
  Except.ok (UserState.fresh, db, [Reply.cancelAck, Reply.callbackAck])

/-- aiogram dispatch over the handlers in registration order: first
matching filter wins; `none` when no handler matches (update dropped). -/
def dispatch (storageOk : Bool) (ev : Event) (st : UserState) (db : DB) :
    Option HandlerResult :=
  match ev with
  | Event.msg m =>
      if isStartCommand m.text then some (start_command m st db)
      else if st.step = Step.awaitingName then some (handle_name_input m st db)
      else if st.step = Step.awaitingContact then some (handle_contact_input m st db)
      else if st.step = Step.awaitingCity then some (handle_city_input m st db)
      else if st.step = Step.awaitingPhoto then
        if m.photos.isEmpty then Option.none
        else some (handle_photo_input storageOk m st db)
      else Option.none
  | Event.callback _ d =>
      if d = "cancel" then some (handle_cancel st db) else Option.none

/-- Observable effect of one inbound update: an unmatched update is
dropped; an exception escaping a handler is caught by the dispatcher
(logged only: no reply, and — since both possible raises occur before any
mutation in the source — no state or table change). -/
def applyEvent (storageOk : Bool) (ev : Event) (st : UserState) (db : DB) :
    UserState × DB × List Reply :=
  match dispatch storageOk ev st db with
  | Option.none => (st, db, [])
  | Option.some (Except.error _) => (st, db, [])
  | Option.some (Except.ok r) => r

/-- Fold `applyEvent` over a list of updates, each paired with the fault
flag its storage access sees; replies are dropped. -/
def runEvents : List (Event × Bool) → UserState × DB → UserState × DB
  | [], s => s
  | (ev, ok) :: rest, (st, db) =>
      let r := applyEvent ok ev st db
      runEvents rest (r.1, r.2.1)

/-- Multi-user system: one FSM state per user id, one shared table. -/
structure Sys where
  users : Nat → UserState
  db : DB

def Sys.init : Sys := ⟨fun _ => UserState.fresh, DB.init⟩

def Event.uid : Event → Nat
  | Event.msg m => m.userId
  | Event.callback u _ => u

/-- One inbound update against the whole system: the sender's FSM state
is read, the update handled, the sender's state and the table updated. -/
def stepSys (storageOk : Bool) (ev : Event) (s : Sys) : Sys :=
  let r := applyEvent storageOk ev (s.users ev.uid) s.db
  ⟨fun u => if u = ev.uid then r.1 else s.users u, r.2.1⟩

def runSys : List (Event × Bool) → Sys → Sys
  | [], s => s
  | (ev, ok) :: rest, s => runSys rest (stepSys ok ev s)

/-- File-level view of the sqlite store for `init_db` (main.py:36-54):
whether the database file exists on disk and how many `receipts` table
definitions it holds.  `sqlite3.connect` creates the file when missing;
`CREATE TABLE IF NOT EXISTS` adds the table only when absent. -/
structure Store where
  fileExists : Bool
  tableCount : Nat
deriving DecidableEq

def sqliteConnect (s : Store) : Store := { s with fileExists := true }

def createTableIfNotExists (s : Store) : Store :=
  { s with tableCount := if s.tableCount = 0 then 1 else s.tableCount }

/-- `init_db` (main.py:36-54): guarded by `os.path.exists(DB_FILE)` — the
body (connect, create-table, commit) runs only when the FILE is absent. -/
def init_db (s : Store) : Store :=
  if s.fileExists then s else createTableIfNotExists (sqliteConnect s)

/-- An ordinary text message: it has a text body, is not a `/start`
command, and carries no photo. -/
def isTextMessage (m : Msg) : Prop :=
  (∃ t, m.text = some t) ∧ isStartCommand m.text = false ∧ m.photos = []

/-- A photo message: photo representations present, no text body (in the
Telegram API a photo message carries a caption, never `text`). -/
def isPhotoMessage (m : Msg) : Prop :=
  m.text = Option.none ∧ m.photos ≠ []

/-- An inbound event whose type does not match the step the user is in:
a text while no text is awaited, a photo while the step is not the photo
step, or a callback that is not the cancel button. -/
def mismatched : Event → UserState → Prop
  | Event.msg m, st =>
      (isTextMessage m ∧ (st.step = Step.idle ∨ st.step = Step.awaitingPhoto)) ∨
      (isPhotoMessage m ∧ st.step ≠ Step.awaitingPhoto)
  | Event.callback _ d, _ => d ≠ "cancel"

/-- The spec's fields invariant, literally: the data dict holds exactly
the keys of the text steps already completed in the current attempt
(and is empty outside a form). -/
def claimedExactKeys (st : UserState) : Bool :=
  match st.step with
  | Step.idle => st.data == FormData.empty
  | Step.awaitingName => st.data == FormData.empty
  | Step.awaitingContact =>
      st.data.name.isSome && st.data.contact == Option.none && st.data.city == Option.none
  | Step.awaitingCity =>
      st.data.name.isSome && st.data.contact.isSome && st.data.city == Option.none
  | Step.awaitingPhoto =>
      st.data.name.isSome && st.data.contact.isSome && st.data.city.isSome

/-- The invariant the code actually maintains: the fields of the steps
already completed in the current attempt are present (and the dict is
empty outside a form); nothing is said about leftover later keys, which
can survive a mid-form `/start` restart. -/
def fieldsAtLeast (st : UserState) : Prop :=
  (st.step = Step.idle → st.data = FormData.empty) ∧
  (st.step = Step.awaitingContact → st.data.name.isSome = true) ∧
  (st.step = Step.awaitingCity →
      st.data.name.isSome = true ∧ st.data.contact.isSome = true) ∧
  (st.step = Step.awaitingPhoto →
      st.data.name.isSome = true ∧ st.data.contact.isSome = true ∧
        st.data.city.isSome = true)

/-- The step the user is in before each event and after the last one. -/
def traceSteps (evs : List (Event × Bool)) (s : UserState × DB) : List Step :=
  (evs.scanl
      (fun q p => ((applyEvent p.2 p.1 q.1 q.2).1, (applyEvent p.2 p.1 q.1 q.2).2.1)) s).map
    (fun q => q.1.step)

/-- Table sanity: row ids are strictly increasing in insertion order and
all below the AUTOINCREMENT counter. -/
def dbInv (db : DB) : Prop :=
  List.Chain' (fun a b => a < b) (db.rows.map Row.id) ∧
  ∀ rw ∈ db.rows, rw.id < db.nextId

theorem isStartCommand_slash_start : isStartCommand (some "/start") = true := by
  decide

theorem isStartCommand_none : isStartCommand Option.none = false := rfl

theorem isEmpty_append_singleton (ps : List String) (r : String) :
    (ps ++ [r]).isEmpty = false := by
  cases ps <;> rfl

theorem getLast?_append_singleton (ps : List String) (r : String) :
    (ps ++ [r]).getLast? = some r := by
  simp [List.getLast?_concat]

/-- C1: a user at AWAITING_PHOTO with name, contact and city collected
who sends a photo whose representation sequence ends in `r` gets exactly
one new row (their id, their handle, the three fields, and `r`), a reply
carrying the assigned receipt id (which occurs literally in the rendered
reply text), and a state reset to NONE with fields cleared. -/
theorem c1_successful_submission (uid : Nat) (handle : String) (n c ci : String)
    (ps : List String) (r : String) (db : DB) :
    applyEvent true (Event.msg ⟨uid, some handle, Option.none, ps ++ [r]⟩)
        ⟨Step.awaitingPhoto, ⟨some n, some c, some ci⟩⟩ db
      = (UserState.fresh,
         ⟨db.nextId + 1, db.rows ++ [⟨db.nextId, uid, handle, n, c, ci, r⟩]⟩,
         [Reply.receipt db.nextId])
    ∧ ∃ a b, replyText (Reply.receipt db.nextId) = a ++ toString db.nextId ++ b := by
  constructor
  · simp [applyEvent, dispatch, isStartCommand, handle_photo_input, tryInsert,
      isEmpty_append_singleton, getLast?_append_singleton]
  · exact ⟨_, _, rfl⟩

/-- C4 counterexample: `/start` sent mid-form (step AWAITING_CITY, name
and contact collected) moves the step to AWAITING_NAME but does NOT clear
the collected fields — `start_command` only calls `set_state`, never
`state.clear()`, so the claim "clears all previously collected fields"
is false. -/
theorem c4_counterexample :
    (applyEvent true (Event.msg ⟨1, some "alice", some "/start", []⟩)
        ⟨Step.awaitingCity, ⟨some "Alice", some "+1-555-0100", Option.none⟩⟩
        DB.init).1.step = Step.awaitingName
    ∧ (applyEvent true (Event.msg ⟨1, some "alice", some "/start", []⟩)
        ⟨Step.awaitingCity, ⟨some "Alice", some "+1-555-0100", Option.none⟩⟩
        DB.init).1.data
      = ⟨some "Alice", some "+1-555-0100", Option.none⟩
    ∧ (⟨some "Alice", some "+1-555-0100", Option.none⟩ : FormData) ≠ FormData.empty := by
  decide

/-- C4 as amended: in any state, a `/start` command sets the step to
AWAITING_NAME and emits the name prompt, but leaves the previously
collected fields in place (they are only overwritten as the user
re-advances, or dropped on cancel/submission). -/
theorem c4_start_resets_step_keeps_fields (ok : Bool) (m : Msg) (st : UserState)
    (db : DB) (h : isStartCommand m.text = true) :
    applyEvent ok (Event.msg m) st db
      = (⟨Step.awaitingName, st.data⟩, db, [Reply.welcome]) := by
  simp [applyEvent, dispatch, h, start_command]

theorem c4_witness :
    applyEvent true (Event.msg ⟨1, Option.none, some "/start", []⟩)
        UserState.fresh DB.init
      = (⟨Step.awaitingName, FormData.empty⟩, DB.init, [Reply.welcome]) :=
  c4_start_resets_step_keeps_fields true ⟨1, Option.none, some "/start", []⟩
    UserState.fresh DB.init (by decide)

/-- C6: when the storage write fails during the photo step, the user gets
the generic error text (not a receipt), no row is added, and the state is
still reset to NONE with fields cleared. -/
theorem c6_storage_failure (uid : Nat) (un : Option String) (n c ci : String)
    (ps : List String) (r : String) (db : DB) :
    applyEvent false (Event.msg ⟨uid, un, Option.none, ps ++ [r]⟩)
        ⟨Step.awaitingPhoto, ⟨some n, some c, some ci⟩⟩ db
      = (UserState.fresh, db, [Reply.storageError]) := by
  simp [applyEvent, dispatch, isStartCommand, handle_photo_input, tryInsert,
    isEmpty_append_singleton, getLast?_append_singleton]

/-- C9: a cancel callback in any step (including NONE) resets the step to
NONE, clears the fields, leaves the table untouched, and sends the
cancellation acknowledgment. -/
theorem c9_cancel_always_resets (ok : Bool) (uid : Nat) (st : UserState) (db : DB) :
    applyEvent ok (Event.callback uid "cancel") st db
      = (UserState.fresh, db, [Reply.cancelAck, Reply.callbackAck]) := by
  simp [applyEvent, dispatch, handle_cancel]

/-- C8 counterexample: a store whose database file exists but holds no
`receipts` structure (`tableCount = 0`).  `init_db` guards on
`os.path.exists(DB_FILE)` alone, so it returns without creating the
structure — refuting "the submission structure is created if and only if
it does not already exist". -/
theorem c8_counterexample :
    (⟨true, 0⟩ : Store).tableCount = 0 ∧ (init_db ⟨true, 0⟩).tableCount = 0 := by
  decide

/-- C8 as amended: the structure is created iff the store's database FILE
does not already exist (a file lacking the structure is left untouched);
the bootstrap is idempotent — a fresh store ends with exactly one
structure definition, and any second invocation is a no-op. -/
theorem c8_bootstrap_amended :
    init_db ⟨false, 0⟩ = ⟨true, 1⟩
    ∧ (∀ s : Store, init_db (init_db s) = init_db s)
    ∧ (∀ s : Store, s.fileExists = true → init_db s = s) := by
  refine ⟨by decide, ?_, ?_⟩
  · intro s
    by_cases h : s.fileExists = true
    · simp [init_db, h]
    · simp [init_db, createTableIfNotExists, sqliteConnect, h]
  · intro s h
    simp [init_db, h]

theorem c8_witness : init_db ⟨true, 1⟩ = ⟨true, 1⟩ :=
  c8_bootstrap_amended.2.2 ⟨true, 1⟩ (by decide)

/-- C3 counterexample: a photo message (no text body) delivered while the
step is AWAITING_NAME is NOT silently ignored: `handle_name_input` is
registered with only the FSM-step filter, so it is dispatched and
`message.text.strip()` raises `AttributeError` (`text` is `None`).  The
framework catches it, but the claim's "silent no-op, no exception" is
false — an exception is raised inside the handler. -/
theorem c3_counterexample :
    dispatch true (Event.msg ⟨1, some "alice", Option.none, ["photoRef"]⟩)
        ⟨Step.awaitingName, FormData.empty⟩ DB.init
      = some (Except.error HandlerErr.attributeError) := rfl

/-- C3 as amended: a mismatched event leaves the step, the collected
fields and the table unchanged and produces no reply; however, a photo
(text-less) message during a text-awaiting step is dispatched to that
step's handler and raises an error that the framework catches — it is
not a silent filter-level skip. -/
theorem c3_mismatch_no_observable_effect (ok : Bool) (ev : Event)
    (st : UserState) (db : DB) (h : mismatched ev st) :
    applyEvent ok ev st db = (st, db, []) := by
  cases ev with
  | callback u d =>
      simp only [mismatched] at h
      simp [applyEvent, dispatch, h]
  | msg m =>
      rcases h with ⟨⟨⟨t, ht⟩, hns, hph⟩, hstep | hstep⟩ | ⟨⟨ht, hph⟩, hstep⟩
      · simp [applyEvent, dispatch, hns, hstep]
      · simp [applyEvent, dispatch, hns, hstep, hph]
      · have hns : isStartCommand m.text = false := by rw [ht]; rfl
        cases hst : st.step with
        | idle => simp [applyEvent, dispatch, isStartCommand, hns, hst, ht]
        | awaitingName =>
            simp [applyEvent, dispatch, isStartCommand, hst, handle_name_input, ht]
        | awaitingContact =>
            simp [applyEvent, dispatch, isStartCommand, hst, handle_contact_input, ht]
        | awaitingCity =>
            simp [applyEvent, dispatch, isStartCommand, hst, handle_city_input, ht]
        | awaitingPhoto => exact absurd hst hstep

theorem c3_witness :
    applyEvent true (Event.msg ⟨7, Option.none, some "hello", []⟩)
        UserState.fresh DB.init
      = (UserState.fresh, DB.init, []) :=
  c3_mismatch_no_observable_effect true
    (Event.msg ⟨7, Option.none, some "hello", []⟩) UserState.fresh DB.init
    (Or.inl ⟨⟨⟨"hello", rfl⟩, by decide, rfl⟩, Or.inl rfl⟩)

/-- C5 counterexample: `/start`, the name "Alice", then `/start` again.
The user is back at AWAITING_NAME with no text step completed in the
current attempt, yet the data dict still holds the name collected in the
abandoned attempt — the "exactly the completed keys" invariant is false
after a mid-form restart, because `start_command` never clears the dict. -/
theorem c5_counterexample :
    claimedExactKeys (runEvents
        [(Event.msg ⟨1, some "alice", some "/start", []⟩, true),
         (Event.msg ⟨1, some "alice", some "Alice", []⟩, true),
         (Event.msg ⟨1, some "alice", some "/start", []⟩, true)]
        (UserState.fresh, DB.init)).1 = false := by
  decide

/-- C5 as amended: the invariant every operation does preserve is a lower
bound — the fields for the text steps already completed in the current
attempt are always present (and the dict is empty at step NONE) — but
keys for steps not yet reached may additionally survive a mid-form
`/start` restart. -/
theorem c5_fields_invariant_amended :
    fieldsAtLeast UserState.fresh
    ∧ ∀ (ok : Bool) (ev : Event) (st : UserState) (db : DB),
        fieldsAtLeast st → fieldsAtLeast (applyEvent ok ev st db).1 := by
  constructor
  · exact ⟨fun _ => rfl, by simp [UserState.fresh], by simp [UserState.fresh],
      by simp [UserState.fresh]⟩
  intro ok ev st db hInv
  cases ev with
  | callback u d =>
      by_cases hd : d = "cancel"
      · simp [applyEvent, dispatch, hd, handle_cancel, fieldsAtLeast,
          UserState.fresh]
      · simpa [applyEvent, dispatch, hd] using hInv
  | msg m =>
      by_cases hs : isStartCommand m.text = true
      · simp [applyEvent, dispatch, hs, start_command, fieldsAtLeast]
      · have hs' : isStartCommand m.text = false := by simpa using hs
        cases hstep : st.step with
        | idle => simpa [applyEvent, dispatch, hs', hstep] using hInv
        | awaitingName =>
            cases htext : m.text with
            | none =>
                simpa [applyEvent, dispatch, hs', hstep, handle_name_input,
                  htext] using hInv
            | some t =>
                rw [htext] at hs'
                simp [applyEvent, dispatch, hs', hstep, handle_name_input,
                  htext, fieldsAtLeast]
        | awaitingContact =>
            cases htext : m.text with
            | none =>
                simpa [applyEvent, dispatch, hs', hstep, handle_contact_input,
                  htext] using hInv
            | some t =>
                rw [htext] at hs'
                have hname := hInv.2.1 hstep
                simp [applyEvent, dispatch, hs', hstep, handle_contact_input,
                  htext, fieldsAtLeast, hname]
        | awaitingCity =>
            cases htext : m.text with
            | none =>
                simpa [applyEvent, dispatch, hs', hstep, handle_city_input,
                  htext] using hInv
            | some t =>
                rw [htext] at hs'
                have hnc := hInv.2.2.1 hstep
                simp [applyEvent, dispatch, hs', hstep, handle_city_input,
                  htext, fieldsAtLeast, hnc.1, hnc.2]
        | awaitingPhoto =>
            by_cases hph : m.photos.isEmpty
            · simpa [applyEvent, dispatch, hs', hstep, hph] using hInv
            · cases hLast : m.photos.getLast? with
              | none =>
                  simpa [applyEvent, dispatch, hs', hstep, hph,
                    handle_photo_input, hLast] using hInv
              | some pid =>
                  cases hIns : tryInsert ok m st.data pid db with
                  | none =>
                      simp [applyEvent, dispatch, hs', hstep, hph,
                        handle_photo_input, hLast, hIns, fieldsAtLeast,
                        UserState.fresh]
                  | some p =>
                      simp [applyEvent, dispatch, hs', hstep, hph,
                        handle_photo_input, hLast, hIns, fieldsAtLeast,
                        UserState.fresh]

theorem c5_witness :
    fieldsAtLeast (applyEvent true (Event.msg ⟨1, Option.none, some "/start", []⟩)
        UserState.fresh DB.init).1 :=
  c5_fields_invariant_amended.2 true (Event.msg ⟨1, Option.none, some "/start", []⟩)
    UserState.fresh DB.init c5_fields_invariant_amended.1

/-- C2: from a fresh user, `/start`, three ordinary texts and a photo
visit exactly NONE, AWAITING_NAME, AWAITING_CONTACT, AWAITING_CITY,
AWAITING_PHOTO, NONE (no step skipped or revisited, whatever the storage
outcome), and after the third text the dict holds exactly the three
trimmed texts under the fields of the steps they arrived at. -/
theorem c2_step_sequence (uid : Nat) (un : Option String) (t1 t2 t3 : String)
    (ps : List String) (r : String) (ok : Bool)
    (h1 : isStartCommand (some t1) = false)
    (h2 : isStartCommand (some t2) = false)
    (h3 : isStartCommand (some t3) = false) :
    traceSteps
        [(Event.msg ⟨uid, un, some "/start", []⟩, true),
         (Event.msg ⟨uid, un, some t1, []⟩, true),
         (Event.msg ⟨uid, un, some t2, []⟩, true),
         (Event.msg ⟨uid, un, some t3, []⟩, true),
         (Event.msg ⟨uid, un, Option.none, ps ++ [r]⟩, ok)]
        (UserState.fresh, DB.init)
      = [Step.idle, Step.awaitingName, Step.awaitingContact, Step.awaitingCity,
         Step.awaitingPhoto, Step.idle]
    ∧ (runEvents
        [(Event.msg ⟨uid, un, some "/start", []⟩, true),
         (Event.msg ⟨uid, un, some t1, []⟩, true),
         (Event.msg ⟨uid, un, some t2, []⟩, true),
         (Event.msg ⟨uid, un, some t3, []⟩, true)]
        (UserState.fresh, DB.init)).1.data
      = ⟨some t1.trim, some t2.trim, some t3.trim⟩ := by
  constructor
  · cases ok <;>
      simp [traceSteps, applyEvent, dispatch, h1, h2, h3,
        isStartCommand_slash_start, isStartCommand_none, start_command, handle_name_input,
        handle_contact_input, handle_city_input, handle_photo_input, tryInsert,
        isEmpty_append_singleton, getLast?_append_singleton, UserState.fresh,
        FormData.empty]
  · simp [runEvents, applyEvent, dispatch, h1, h2, h3,
      isStartCommand_slash_start, start_command, handle_name_input,
      handle_contact_input, handle_city_input, UserState.fresh, FormData.empty]

theorem c2_witness :
    traceSteps
        [(Event.msg ⟨1, some "alice", some "/start", []⟩, true),
         (Event.msg ⟨1, some "alice", some "Alice", []⟩, true),
         (Event.msg ⟨1, some "alice", some "+1-555-0100", []⟩, true),
         (Event.msg ⟨1, some "alice", some "Springfield", []⟩, true),
         (Event.msg ⟨1, some "alice", Option.none, ["small123"] ++ ["large456"]⟩, true)]
        (UserState.fresh, DB.init)
      = [Step.idle, Step.awaitingName, Step.awaitingContact, Step.awaitingCity,
         Step.awaitingPhoto, Step.idle]
    ∧ (runEvents
        [(Event.msg ⟨1, some "alice", some "/start", []⟩, true),
         (Event.msg ⟨1, some "alice", some "Alice", []⟩, true),
         (Event.msg ⟨1, some "alice", some "+1-555-0100", []⟩, true),
         (Event.msg ⟨1, some "alice", some "Springfield", []⟩, true)]
        (UserState.fresh, DB.init)).1.data
      = ⟨some "Alice".trim, some "+1-555-0100".trim, some "Springfield".trim⟩ :=
  c2_step_sequence 1 (some "alice") "Alice" "+1-555-0100" "Springfield"
    ["small123"] "large456" true (by decide) (by decide) (by decide)

theorem tryInsert_cases (ok : Bool) (m : Msg) (d : FormData) (pid : String)
    (db : DB) :
    tryInsert ok m d pid db = Option.none ∨
    ∃ rw : Row, rw.id = db.nextId ∧
      tryInsert ok m d pid db
        = some (⟨db.nextId + 1, db.rows ++ [rw]⟩, db.nextId) := by
  unfold tryInsert
  cases d.name with
  | none => exact Or.inl rfl
  | some n =>
      cases d.contact with
      | none => exact Or.inl rfl
      | some c =>
          cases d.city with
          | none => exact Or.inl rfl
          | some ci =>
              cases ok with
              | false => exact Or.inl rfl
              | true => exact Or.inr ⟨_, rfl, rfl⟩

/-- Handling any single event either leaves the table untouched or
appends exactly one row carrying the current AUTOINCREMENT id. -/
theorem applyEvent_db_cases (ok : Bool) (ev : Event) (st : UserState) (db : DB) :
    (applyEvent ok ev st db).2.1 = db ∨
    ∃ rw : Row, rw.id = db.nextId ∧
      (applyEvent ok ev st db).2.1 = ⟨db.nextId + 1, db.rows ++ [rw]⟩ := by
  cases ev with
  | callback u d =>
      by_cases hd : d = "cancel"
      · simp [applyEvent, dispatch, hd, handle_cancel]
      · simp [applyEvent, dispatch, hd]
  | msg m =>
      by_cases hs : isStartCommand m.text = true
      · simp [applyEvent, dispatch, hs, start_command]
      · have hs' : isStartCommand m.text = false := by simpa using hs
        cases hstep : st.step with
        | idle => simp [applyEvent, dispatch, hs', hstep]
        | awaitingName =>
            cases htext : m.text with
            | none =>
                simp [applyEvent, dispatch, isStartCommand_none, hstep,
                  handle_name_input, htext]
            | some t =>
                rw [htext] at hs'
                simp [applyEvent, dispatch, hs', hstep, handle_name_input, htext]
        | awaitingContact =>
            cases htext : m.text with
            | none =>
                simp [applyEvent, dispatch, isStartCommand_none, hstep,
                  handle_contact_input, htext]
            | some t =>
                rw [htext] at hs'
                simp [applyEvent, dispatch, hs', hstep, handle_contact_input, htext]
        | awaitingCity =>
            cases htext : m.text with
            | none =>
                simp [applyEvent, dispatch, isStartCommand_none, hstep,
                  handle_city_input, htext]
            | some t =>
                rw [htext] at hs'
                simp [applyEvent, dispatch, hs', hstep, handle_city_input, htext]
        | awaitingPhoto =>
            by_cases hph : m.photos.isEmpty
            · simp [applyEvent, dispatch, hs', hstep, hph]
            · cases hLast : m.photos.getLast? with
              | none =>
                  simp [applyEvent, dispatch, hs', hstep, hph,
                    handle_photo_input, hLast]
              | some pid =>
                  rcases tryInsert_cases ok m st.data pid db with hIns | ⟨rw, hid, hIns⟩
                  · simp [applyEvent, dispatch, hs', hstep, hph,
                      handle_photo_input, hLast, hIns]
                  · right
                    exact ⟨rw, hid, by
                      simp [applyEvent, dispatch, hs', hstep, hph,
                        handle_photo_input, hLast, hIns]⟩

theorem dbInv_applyEvent (ok : Bool) (ev : Event) (st : UserState) (db : DB)
    (h : dbInv db) : dbInv (applyEvent ok ev st db).2.1 := by
  rcases applyEvent_db_cases ok ev st db with he | ⟨rw, hid, he⟩
  · rw [he]; exact h
  · rw [he]
    constructor
    · simp only [List.map_append, List.map_cons, List.map_nil]
      rw [List.chain'_append]
      refine ⟨h.1, List.chain'_singleton _, ?_⟩
      intro x hx y hy
      simp only [List.head?_cons, Option.mem_def, Option.some.injEq] at hy
      subst hy
      have hxmem : x ∈ db.rows.map Row.id := List.mem_of_mem_getLast? hx
      rcases List.mem_map.mp hxmem with ⟨rx, hrx, hrxid⟩
      rw [← hrxid, hid]
      exact h.2 rx hrx
    · intro r hr
      rcases List.mem_append.mp hr with hr | hr
      · exact Nat.lt_succ_of_lt (h.2 r hr)
      · rcases List.mem_singleton.mp hr with rfl
        rw [hid]
        exact Nat.lt_succ_self _

theorem dbInv_runSys (evs : List (Event × Bool)) (s : Sys) (h : dbInv s.db) :
    dbInv (runSys evs s).db := by
  induction evs generalizing s with
  | nil => exact h
  | cons p rest ih =>
      exact ih (stepSys p.2 p.1 s) (dbInv_applyEvent p.2 p.1 (s.users p.1.uid) s.db h)

/-- C7: over any sequence of events from any mix of users, with storage
faults injected anywhere, the receipt ids of the stored rows are strictly
increasing in submission order — in particular all distinct, so no id is
ever reused. -/
theorem c7_receipt_ids_strictly_increasing (evs : List (Event × Bool)) :
    List.Chain' (fun a b => a < b) ((runSys evs Sys.init).db.rows.map Row.id)
    ∧ ((runSys evs Sys.init).db.rows.map Row.id).Nodup := by
  have h := dbInv_runSys evs Sys.init ⟨List.chain'_nil, by intro r hr; cases hr⟩
  refine ⟨h.1, ?_⟩
  have hp : ((runSys evs Sys.init).db.rows.map Row.id).Pairwise (fun a b => a < b) :=
    List.chain'_iff_pairwise.mp h.1
  exact hp.imp Nat.ne_of_lt

/-- C10: `handle_photo_input` is only dispatched under the `F.photo`
filter, i.e. when the photo representation list is non-empty, and then
selecting its last element is defined: the handler cannot raise the
out-of-range error. -/
theorem c10_photo_guard (ok : Bool) (m : Msg) (st : UserState) (db : DB)
    (hstep : st.step = Step.awaitingPhoto) (hph : m.photos ≠ [])
    (hs : isStartCommand m.text = false) :
    ∃ ref : String,
      m.photos.getLast? = some ref
      ∧ dispatch ok (Event.msg m) st db = some (handle_photo_input ok m st db)
      ∧ handle_photo_input ok m st db ≠ Except.error HandlerErr.indexError := by
  obtain ⟨ref, href⟩ : ∃ ref, m.photos.getLast? = some ref :=
    Option.isSome_iff_exists.mp (List.getLast?_isSome.mpr hph)
  have hempty : m.photos.isEmpty = false := by
    simp [List.isEmpty_iff, hph]
  refine ⟨ref, href, ?_, ?_⟩
  · simp [dispatch, hs, hstep, hempty]
  · rcases tryInsert_cases ok m st.data ref db with hIns | ⟨rw, hid, hIns⟩
    · simp [handle_photo_input, href, hIns]
    · simp [handle_photo_input, href, hIns]

theorem c10_witness :
    ∃ ref : String,
      (["small123", "large456"] : List String).getLast? = some ref
      ∧ dispatch true
            (Event.msg ⟨1, some "alice", Option.none, ["small123", "large456"]⟩)
            ⟨Step.awaitingPhoto, ⟨some "Alice", some "+1-555-0100", some "Springfield"⟩⟩
            DB.init
          = some (handle_photo_input true
              ⟨1, some "alice", Option.none, ["small123", "large456"]⟩
              ⟨Step.awaitingPhoto, ⟨some "Alice", some "+1-555-0100", some "Springfield"⟩⟩
              DB.init)
      ∧ handle_photo_input true
            ⟨1, some "alice", Option.none, ["small123", "large456"]⟩
            ⟨Step.awaitingPhoto, ⟨some "Alice", some "+1-555-0100", some "Springfield"⟩⟩
            DB.init
          ≠ Except.error HandlerErr.indexError :=
  c10_photo_guard true ⟨1, some "alice", Option.none, ["small123", "large456"]⟩
    ⟨Step.awaitingPhoto, ⟨some "Alice", some "+1-555-0100", some "Springfield"⟩⟩
    DB.init rfl (by decide) (by decide)
